import Mathlib

/-!
Shallow embedding of the NCrystal material-info core
(`NCInfo.hh` and `NCLatticeUtils.hh`), with theorems checking the
natural-language specification against the embedded code.

C++ `double` values are modelled as exact rationals (ℚ); machine integers as
ℤ/ℕ; throwing functions return `Except Err`.  Bodies that are only declared in
the shown headers (they live in `.cc` files that are not part of the shown
source) are modelled from the specification; each such definition carries a
doc comment starting with `Modelled from the spec:`.
-/

namespace NCrystal

/-- Error taxonomy of the core: `invariantViolation` models the
invariant-violation (programming-error) exceptions thrown by `ensureNoLock`,
`badInput` models `BadInput` exceptions from input validation, and
`logicError` models `NCRYSTAL_THROW(LogicError, msg)` carrying its message. -/
inductive Err where
  | invariantViolation : Err
  | badInput : Err
  | logicError (msg : String) : Err
deriving DecidableEq

/-- `StructureInfo` from NCInfo.hh: spacegroup (0 = unknown, else 1–230), six
lattice parameters, unit-cell volume and atom count per cell. -/
structure StructureInfo where
  spacegroup : ℕ := 0
  lattice_a : ℚ := 0
  lattice_b : ℚ := 0
  lattice_c : ℚ := 0
  alpha : ℚ := 0
  beta : ℚ := 0
  gamma : ℚ := 0
  volume : ℚ := 0
  n_atoms : ℕ := 0
deriving DecidableEq

/-- `HKLInfo` from NCInfo.hh: one reflection.  `demi_normals` is the optional
half-list of unit plane normals; `eqv_hkl`, when present, packs the
corresponding Miller indices of the demi-normals as short integers
(3 entries per demi-normal). -/
structure HKLInfo where
  dspacing : ℚ := 0
  fsquared : ℚ := 0
  h : ℤ := 0
  k : ℤ := 0
  l : ℤ := 0
  multiplicity : ℕ := 0
  demi_normals : List (ℚ × ℚ × ℚ) := []
  eqv_hkl : Option (List ℤ) := none
deriving DecidableEq

/-- Modelled from the spec: `AtomData` is defined in NCAtomData.hh, which is
not part of the shown source.  Only the atomic number Z — the sort key that
`Info::objectDone` uses for the atom list ("by Z first") — is modelled. -/
structure AtomData where
  Z : ℕ
deriving DecidableEq

/-- `IndexedAtomData` from NCInfo.hh: an `AtomData` record together with a
dense index valid only within one `Info` object. -/
structure IndexedAtomData where
  atomDataSP : AtomData
  index : ℕ
deriving DecidableEq

/-- `AtomInfo` from NCInfo.hh: one structural role of an atom in the unit
cell.  The non-owning back-reference `m_dyninfo` to the corresponding
`DynamicInfo` is modelled as an index into the sibling `dyninfolist`. -/
structure AtomInfo where
  iad : IndexedAtomData
  dt : Option ℚ := none
  msd : Option ℚ := none
  pos : List (ℚ × ℚ × ℚ) := []
  dyninfo : Option ℕ := none
deriving DecidableEq

/-- The five `DynamicInfo` variants of NCInfo.hh (`DI_Sterile`, `DI_FreeGas`,
`DI_ScatKnlDirect`-family, `DI_VDOS`, `DI_VDOSDebye`); only the
variant-specific payload needed by the claims is modelled. -/
inductive DynInfoVariant where
  | sterile : DynInfoVariant
  | freeGas : DynInfoVariant
  | scatKnlDirect : DynInfoVariant
  | vdos : DynInfoVariant
  | vdosDebye (debyeTemperature : ℚ) : DynInfoVariant
deriving DecidableEq

/-- `DynamicInfo` from NCInfo.hh: fraction, indexed atom, temperature, and a
non-owning back-reference to the corresponding `AtomInfo`, modelled as an
index into the sibling `atomlist`. -/
structure DynamicInfo where
  fraction : ℚ
  atom : IndexedAtomData
  temperature : ℚ
  atomInfo : Option ℕ := none
  variant : DynInfoVariant
deriving DecidableEq

/-- `DynamicInfo::changeFraction` from NCInfo.hh: mutates the fraction with no
lock check (the fraction is documented as mutable post-construction). -/
def DynamicInfo.changeFraction (di : DynamicInfo) (f : ℚ) : DynamicInfo :=
  { di with fraction := f }

/-- The `Info` aggregate from NCInfo.hh, with the member fields of the C++
class (`m_` prefixes dropped).  The non-Bragg cross-section provider is an
optional function of neutron energy. -/
structure Info where
  structinfo : Option StructureInfo := none
  atomlist : List AtomInfo := []
  hkllist : List HKLInfo := []
  dyninfolist : List DynamicInfo := []
  hkl_dlower_and_dupper : Option (ℚ × ℚ) := none
  density : Option ℚ := none
  numberdensity : Option ℚ := none
  xsect_free : Option ℚ := none
  xsect_absorption : Option ℚ := none
  temp : Option ℚ := none
  xsectprovider : Option (ℚ → ℚ) := none
  composition : List (ℚ × IndexedAtomData) := []
  custom : List (String × List (List String)) := []
  lock : Bool := false
  atomDataSPs : List AtomData := []
  displayLabels : List String := []

/-- `Info::hasStructureInfo`: `m_structinfo.has_value()`. -/
def Info.hasStructureInfo (i : Info) : Bool := i.structinfo.isSome

/-- `Info::hasAtomInfo`: `!m_atomlist.empty()`. -/
def Info.hasAtomInfo (i : Info) : Bool := !i.atomlist.isEmpty

/-- `Info::hasAtomPositions` (obsolete alias): `hasAtomInfo()`. -/
def Info.hasAtomPositions (i : Info) : Bool := i.hasAtomInfo

/-- `Info::hasHKLInfo`: `m_hkl_dlower_and_dupper.has_value()`. -/
def Info.hasHKLInfo (i : Info) : Bool := i.hkl_dlower_and_dupper.isSome

/-- `Info::isCrystalline`: `hasStructureInfo() || hasAtomPositions() ||
hasHKLInfo()`. -/
def Info.isCrystalline (i : Info) : Bool :=
  i.hasStructureInfo || i.hasAtomPositions || i.hasHKLInfo

/-- `Info::hasAtomMSD`: `hasAtomInfo() && m_atomlist.front().msd().has_value()`
(short-circuit `&&`, so the front element is only read on a non-empty list). -/
def Info.hasAtomMSD (i : Info) : Bool :=
  i.hasAtomInfo && (match i.atomlist with
    | [] => false
    | a :: _ => a.msd.isSome)

/-- `Info::hasAtomDebyeTemp`: `hasAtomInfo() &&
m_atomlist.front().debyeTemp().has_value()`. -/
def Info.hasAtomDebyeTemp (i : Info) : Bool :=
  i.hasAtomInfo && (match i.atomlist with
    | [] => false
    | a :: _ => a.dt.isSome)

/-- `Info::hasDebyeTemperature` (alias): `hasAtomDebyeTemp()`. -/
def Info.hasDebyeTemperature (i : Info) : Bool := i.hasAtomDebyeTemp

/-- `Info::hasAnyDebyeTemperature` (obsolete alias): `hasAtomDebyeTemp()`. -/
def Info.hasAnyDebyeTemperature (i : Info) : Bool := i.hasAtomDebyeTemp

/-- `Info::nHKL`: `m_hkllist.size()`. -/
def Info.nHKL (i : Info) : ℕ := i.hkllist.length

/-- `Info::hklBegin`: iterator to the first entry, modelled as index 0. -/
def Info.hklBegin (i : Info) : ℕ := 0

/-- `Info::hklEnd`: past-the-end iterator, modelled as the list length. -/
def Info.hklEnd (i : Info) : ℕ := i.hkllist.length

/-- `Info::hklLast`: `m_hkllist.empty() ? m_hkllist.end() :
std::prev(m_hkllist.end())`. -/
def Info.hklLast (i : Info) : ℕ :=
  if i.hkllist.isEmpty then i.hkllist.length else i.hkllist.length - 1

/-- `Info::hklDLower`: first component of the `[dlower,dupper]` window (the
C++ accessor asserts presence; modelled as an `Option`). -/
def Info.hklDLower (i : Info) : Option ℚ :=
  i.hkl_dlower_and_dupper.map (fun w => w.1)

/-- `Info::hklDUpper`: second component of the `[dlower,dupper]` window. -/
def Info.hklDUpper (i : Info) : Option ℚ :=
  i.hkl_dlower_and_dupper.map (fun w => w.2)

/-- Extended d-spacing value: `inf` models the C++ `infinity` returned by
`hklDMinVal`/`hklDMaxVal` on an empty reflection list. -/
inductive DBound where
  | inf : DBound
  | val (d : ℚ) : DBound
deriving DecidableEq

/-- Modelled from the spec: the body of `Info::hklDMinVal` is not in the shown
source; the header documents that it returns the smallest d-spacing, or
infinity when `nHKL()==0`. -/
def Info.hklDMinVal (i : Info) : DBound :=
  match i.hkllist with
  | [] => .inf
  | x :: xs => .val ((xs.map HKLInfo.dspacing).foldl min x.dspacing)

/-- Modelled from the spec: the body of `Info::hklDMaxVal` is not in the shown
source; the header documents that it returns the largest d-spacing, or
infinity when `nHKL()==0`. -/
def Info.hklDMaxVal (i : Info) : DBound :=
  match i.hkllist with
  | [] => .inf
  | x :: xs => .val ((xs.map HKLInfo.dspacing).foldl max x.dspacing)

/-- The migration-guidance message of `Info::throwObsoleteDebyeTemp`. -/
def obsoleteDebyeTempMsg : String :=
  "The concept of global versus per-element Debye temperatures has been removed. Revisit NCInfo.hh to see how to get Debye temperatures from the AtomInfo objects (and note the new hasAtomDebyeTemp() method)."

/-- `Info::throwObsoleteDebyeTemp`: unconditionally throws `LogicError` with
the migration-guidance message. -/
def throwObsoleteDebyeTemp {α : Type} : Except Err α :=
  .error (.logicError obsoleteDebyeTempMsg)

/-- `Info::getGlobalDebyeTemperature`: calls `throwObsoleteDebyeTemp()` before
its (unreachable) return statement. -/
def Info.getGlobalDebyeTemperature (_ : Info) : Except Err ℚ :=
  throwObsoleteDebyeTemp

/-- `Info::hasPerElementDebyeTemperature`: calls `throwObsoleteDebyeTemp()`
before its (unreachable) return statement. -/
def Info.hasPerElementDebyeTemperature (_ : Info) : Except Err Bool :=
  throwObsoleteDebyeTemp

/-- `Info::getDebyeTemperatureByElement`: calls `throwObsoleteDebyeTemp()`
before its (unreachable) return statement. -/
def Info.getDebyeTemperatureByElement (_ : Info) (_ : ℕ) : Except Err ℚ :=
  throwObsoleteDebyeTemp

/-- Modelled from the spec: the body of `Info::ensureNoLock` is only declared
in the shown source; per the spec, every mutator asserts the object is still
Building, and mutating a Locked object fails with an invariant-violation
error. -/
def Info.ensureNoLock (i : Info) : Except Err Unit :=
  if i.lock then .error .invariantViolation else .ok ()

/-- `Info::addAtom`: `ensureNoLock(); m_atomlist.push_back(...)`. -/
def Info.addAtom (i : Info) (ai : AtomInfo) : Except Err Info :=
  match i.ensureNoLock with
  | .error e => .error e
  | .ok _ => .ok { i with atomlist := i.atomlist ++ [ai] }

/-- Modelled from the spec: the body of `Info::enableHKLInfo` is only declared
in the shown source; it records the `[dlower,dupper]` window used to generate
the HKL list (the presence flag of HKL info), after the Building-state
assertion shared by all mutators. -/
def Info.enableHKLInfo (i : Info) (dlower dupper : ℚ) : Except Err Info :=
  match i.ensureNoLock with
  | .error e => .error e
  | .ok _ => .ok { i with hkl_dlower_and_dupper := some (dlower, dupper) }

/-- `Info::addHKL`: `ensureNoLock(); m_hkllist.emplace_back(...)`. -/
def Info.addHKL (i : Info) (hi : HKLInfo) : Except Err Info :=
  match i.ensureNoLock with
  | .error e => .error e
  | .ok _ => .ok { i with hkllist := i.hkllist ++ [hi] }

/-- `Info::setHKLList`: `ensureNoLock(); m_hkllist = ...`. -/
def Info.setHKLList (i : Info) (hkllist : List HKLInfo) : Except Err Info :=
  match i.ensureNoLock with
  | .error e => .error e
  | .ok _ => .ok { i with hkllist := hkllist }

/-- `Info::setStructInfo`: `ensureNoLock();
nc_assert_always(!m_structinfo.has_value()); m_structinfo = si`.  The
always-on assertion is modelled as a `LogicError`. -/
def Info.setStructInfo (i : Info) (si : StructureInfo) : Except Err Info :=
  match i.ensureNoLock with
  | .error e => .error e
  | .ok _ =>
    if i.structinfo.isSome then .error (.logicError "nc_assert_always")
    else .ok { i with structinfo := some si }

/-- `Info::setXSectFree`: `ensureNoLock(); m_xsect_free = x`. -/
def Info.setXSectFree (i : Info) (x : ℚ) : Except Err Info :=
  match i.ensureNoLock with
  | .error e => .error e
  | .ok _ => .ok { i with xsect_free := some x }

/-- `Info::setXSectAbsorption`: `ensureNoLock(); m_xsect_absorption = x`. -/
def Info.setXSectAbsorption (i : Info) (x : ℚ) : Except Err Info :=
  match i.ensureNoLock with
  | .error e => .error e
  | .ok _ => .ok { i with xsect_absorption := some x }

/-- `Info::setTemperature`: `ensureNoLock(); m_temp = t`. -/
def Info.setTemperature (i : Info) (t : ℚ) : Except Err Info :=
  match i.ensureNoLock with
  | .error e => .error e
  | .ok _ => .ok { i with temp := some t }

/-- `Info::setDensity`: `ensureNoLock(); m_density = d`. -/
def Info.setDensity (i : Info) (d : ℚ) : Except Err Info :=
  match i.ensureNoLock with
  | .error e => .error e
  | .ok _ => .ok { i with density := some d }

/-- `Info::setNumberDensity`: `ensureNoLock(); m_numberdensity = d`. -/
def Info.setNumberDensity (i : Info) (d : ℚ) : Except Err Info :=
  match i.ensureNoLock with
  | .error e => .error e
  | .ok _ => .ok { i with numberdensity := some d }

/-- `Info::setXSectProvider`: `ensureNoLock(); nc_assert(!!xsp);
m_xsectprovider = ...` (the debug-mode assertion cannot fire here since the
argument is a total function). -/
def Info.setXSectProvider (i : Info) (xsp : ℚ → ℚ) : Except Err Info :=
  match i.ensureNoLock with
  | .error e => .error e
  | .ok _ => .ok { i with xsectprovider := some xsp }

/-- `Info::addDynInfo`: `ensureNoLock(); nc_assert(di);
m_dyninfolist.push_back(...)`. -/
def Info.addDynInfo (i : Info) (di : DynamicInfo) : Except Err Info :=
  match i.ensureNoLock with
  | .error e => .error e
  | .ok _ => .ok { i with dyninfolist := i.dyninfolist ++ [di] }

/-- `Info::setComposition`: `ensureNoLock(); m_composition = ...`. -/
def Info.setComposition (i : Info) (c : List (ℚ × IndexedAtomData)) : Except Err Info :=
  match i.ensureNoLock with
  | .error e => .error e
  | .ok _ => .ok { i with composition := c }

/-- `Info::setCustomData`: `ensureNoLock(); m_custom = ...`. -/
def Info.setCustomData (i : Info) (cd : List (String × List (List String))) : Except Err Info :=
  match i.ensureNoLock with
  | .error e => .error e
  | .ok _ => .ok { i with custom := cd }

/-- `Info::isLocked`: `m_lock`. -/
def Info.isLocked (i : Info) : Bool := i.lock

/-- The sort key used by `objectDone` for the reflection list: d-spacing
first, then the (h,k,l) triple lexicographically for determinism among
ties. -/
def hklKey (x : HKLInfo) : ℚ ×ₗ (ℤ ×ₗ (ℤ ×ₗ ℤ)) :=
  toLex (x.dspacing, toLex (x.h, toLex (x.k, x.l)))

/-- The reflection-list sort order of `objectDone`. -/
def hklLE (x y : HKLInfo) : Prop := hklKey x ≤ hklKey y

instance : DecidableRel hklLE := fun x y =>
  inferInstanceAs (Decidable (hklKey x ≤ hklKey y))

instance : IsTotal HKLInfo hklLE := ⟨fun a b => le_total (hklKey a) (hklKey b)⟩

instance : IsTrans HKLInfo hklLE := ⟨fun _ _ _ hab hbc => le_trans hab hbc⟩

/-- The atomic number Z of an `AtomInfo`, the atom-list sort key of
`objectDone` ("by Z first"). -/
def AtomInfo.Zval (a : AtomInfo) : ℕ := a.iad.atomDataSP.Z

/-- The atom-list sort order of `objectDone`: ascending atomic number. -/
def atomZLE (a b : AtomInfo) : Prop := a.Zval ≤ b.Zval

instance : DecidableRel atomZLE := fun a b =>
  inferInstanceAs (Decidable (a.Zval ≤ b.Zval))

instance : IsTotal AtomInfo atomZLE := ⟨fun _ _ => Nat.le_total _ _⟩

instance : IsTrans AtomInfo atomZLE := ⟨fun _ _ _ => Nat.le_trans⟩

/-- All indexed-atom records reachable from an `Info` (atom list,
dynamic-info list, composition), used by `objectDone` to build the
atom-index keyed lookup table. -/
def Info.collectIADs (i : Info) : List IndexedAtomData :=
  i.atomlist.map (fun a => a.iad) ++ i.dyninfolist.map (fun d => d.atom)
    ++ i.composition.map (fun c => c.2)

/-- Modelled from the spec: the body of `Info::objectDone` is only declared in
the shown source (its header comment: "Finish up (sorts hkl list (by dspacing
first), and atom info list (by Z first)). This locks the instance.").  Per the
spec, the single finalize transition sorts the reflection list by d-spacing
then (h,k,l), sorts the atom list by atomic number, cross-links each
AtomInfo↔DynamicInfo pair sharing the same IndexedAtom via non-owning
back-references (modelled as indices into the sibling list), builds the
atom-index→record lookup table and display labels, and locks the object.
Calling it twice is a programming error, modelled by the Building-state
check. -/
def Info.objectDone (i : Info) : Except Err Info :=
  match i.ensureNoLock with
  | .error e => .error e
  | .ok _ =>
    let sortedHKL := i.hkllist.insertionSort hklLE
    let sortedAtoms := i.atomlist.insertionSort atomZLE
    let linkedAtoms := sortedAtoms.map fun a =>
      { a with dyninfo := i.dyninfolist.findIdx? fun d => d.atom == a.iad }
    let linkedDyns := i.dyninfolist.map fun d =>
      { d with atomInfo := sortedAtoms.findIdx? fun a => a.iad == d.atom }
    let iads := i.collectIADs
    let nIdx := (iads.map fun x => x.index + 1).foldr max 0
    let table := (List.range nIdx).filterMap fun j =>
      (iads.find? fun x => x.index == j).map fun x => x.atomDataSP
    let labels := (List.range nIdx).map fun j => "atom-" ++ toString j
    .ok { i with hkllist := sortedHKL, atomlist := linkedAtoms,
                 dyninfolist := linkedDyns, atomDataSPs := table,
                 displayLabels := labels, lock := true }

/-- Modelled from the spec: the body of
`DI_ScatKnlDirect::ensureBuildThenReturnSAB` is only declared in the shown
source.  Per spec §5, the per-object mutex guards the critical section
"check cache → build if absent → store → return"; this is one execution of
that critical section on the cached `m_sabdata` (`none` = unbuilt).  Result:
(returned kernel, new cache state, number of `buildSAB` executions). -/
def ensureBuildCriticalSection {α : Type} (buildSAB : α) (cache : Option α) :
    α × Option α × ℕ :=
  match cache with
  | some s => (s, some s, 0)
  | none => (buildSAB, some buildSAB, 1)

/-- Modelled from the spec: N concurrent calls to
`ensureBuildThenReturnSAB` on one `DI_ScatKnlDirect` instance serialize on
the per-object mutex, so their execution is the sequential composition of N
critical sections (the calls are symmetric, so the serialization order is
irrelevant).  Returns (list of kernels returned to the N callers, final
cache state, total number of `buildSAB` executions). -/
def runEnsureBuildCalls {α : Type} (buildSAB : α) :
    ℕ → Option α → List α × Option α × ℕ
  | 0, cache => ([], cache, 0)
  | n + 1, cache =>
    let r := ensureBuildCriticalSection buildSAB cache
    let rest := runEnsureBuildCalls buildSAB n r.2.1
    (r.1 :: rest.1, rest.2.1, r.2.2 + rest.2.2)

/-- Modelled from the spec: `DI_ScatKnlDirect::hasBuiltSAB` is a query-only
check of the cache that never triggers construction. -/
def hasBuiltSAB {α : Type} (cache : Option α) : Bool := cache.isSome

/-- The IEEE-double constant `2π` used by the lattice utilities (the double
nearest 2π), as an exact rational: 884279719003555 · 2⁻⁴⁷. -/
def twoPi : ℚ := 884279719003555 / 140737488355328

/-- Modelled from the spec: the body of `estimateHKLRange` is only declared in
the shown source.  Per spec §4.1, the bound along one axis of the reciprocal
matrix is `max_i = floor(2π / (dcutoff * |row_i|))`, with a minimum of 0 if
dcutoff is non-positive or unreachable.  The row norm `|row_i|` is taken as an
input. -/
def estimateHKLRangeAxis (dcutoff rnorm : ℚ) : ℤ :=
  if dcutoff ≤ 0 then 0 else max 0 ⌊twoPi / (dcutoff * rnorm)⌋

/-- Modelled from the spec: `estimateHKLRange(dcutoff, rec_lat)` returns the
per-axis bounds (max_h, max_k, max_l), given the three row norms of the
reciprocal matrix. -/
def estimateHKLRange (dcutoff r0 r1 r2 : ℚ) : ℤ × ℤ × ℤ :=
  ( estimateHKLRangeAxis dcutoff r0
  , estimateHKLRangeAxis dcutoff r1
  , estimateHKLRangeAxis dcutoff r2 )

/-- Modelled from the spec: the body of `estimateDCutoff` is only declared in
the shown source.  Per spec §4.1 it is "the minimum over axes of
`2π / (maxHKL * |row_i|)`", given the three row norms of the reciprocal
matrix. -/
def estimateDCutoff (maxhkl : ℤ) (r0 r1 r2 : ℚ) : ℚ :=
  min (twoPi / ((maxhkl : ℚ) * r0))
    (min (twoPi / ((maxhkl : ℚ) * r1)) (twoPi / ((maxhkl : ℚ) * r2)))

/-- Largest component of an (h,k,l)-bound triple. -/
def maxTriple (t : ℤ × ℤ × ℤ) : ℤ := max t.1 (max t.2.1 t.2.2)

/-- Smallest component of an (h,k,l)-bound triple. -/
def minTriple (t : ℤ × ℤ × ℤ) : ℤ := min t.1 (min t.2.1 t.2.2)

/-- The completed lattice length b of `checkAndCompleteLattice`: spacegroups
75–230 (tetragonal, trigonal, hexagonal, cubic) mandate b = a, and a
zero-valued b is completed to a. -/
def completeB (spacegroup : ℕ) (a b : ℚ) : ℚ :=
  if 75 ≤ spacegroup ∧ b = 0 then a else b

/-- The completed lattice length c of `checkAndCompleteLattice`: spacegroups
195–230 (cubic) mandate c = a, and a zero-valued c is completed to a. -/
def completeC (spacegroup : ℕ) (a c : ℚ) : ℚ :=
  if 195 ≤ spacegroup ∧ c = 0 then a else c

/-- Modelled from the spec: the body of `checkAndCompleteLattice` is only
declared in the shown source.  Per spec §4.1 it validates the spacegroup
number against [1,230], completes a zero-valued b or c where the spacegroup's
point-group symmetry mandates equal axis lengths (tetragonal/trigonal/
hexagonal: a==b; cubic: a==b==c), and fails with a BadInput error when a
provided non-zero b or c contradicts the mandated equality or a length
required to be positive is zero or negative.  On success it returns the
completed (b, c). -/
def checkAndCompleteLattice (spacegroup : ℕ) (a b c : ℚ) : Except Err (ℚ × ℚ) :=
  if spacegroup < 1 ∨ 230 < spacegroup then .error .badInput
  else
    let b' := completeB spacegroup a b
    let c' := completeC spacegroup a c
    if 75 ≤ spacegroup ∧ b' ≠ a then .error .badInput
    else if 195 ≤ spacegroup ∧ c' ≠ a then .error .badInput
    else if a ≤ 0 ∨ b' ≤ 0 ∨ c' ≤ 0 then .error .badInput
    else .ok (b', c')

/-!  Theorems -/

/-- Helper: what a successful `objectDone` guarantees about the result: the
source object was still Building, the result is Locked, its reflection list is
the sorted original, and its atom list is the sorted original with the
dynamic-info back-references filled in. -/
theorem objectDone_ok {i i' : Info} (h : i.objectDone = .ok i') :
    i.lock = false ∧ i'.lock = true ∧
    i'.hkllist = i.hkllist.insertionSort hklLE ∧
    i'.atomlist = (i.atomlist.insertionSort atomZLE).map (fun a =>
      { a with dyninfo := i.dyninfolist.findIdx? fun d => d.atom == a.iad }) := by
  unfold Info.objectDone Info.ensureNoLock at h
  by_cases hl : i.lock
  · simp [hl] at h
  · simp only [hl, if_neg, Bool.false_eq_true, ite_false] at h
    simp only [Except.ok.injEq] at h
    subst h
    simp [hl]

/-- Claim C1: for every Info object on which finalize (`objectDone`) has
succeeded, every subsequent call to each of the thirteen mutating operations
(`addAtom`, `addHKL`, `setHKLList`, `setStructInfo`, `setXSectFree`,
`setXSectAbsorption`, `setTemperature`, `setDensity`, `setNumberDensity`,
`setXSectProvider`, `addDynInfo`, `setComposition`, `setCustomData`) fails
with an invariant-violation error; zero mutator calls succeed
post-finalize. -/
theorem locked_info_rejects_all_mutators (i i' : Info)
    (hdone : i.objectDone = .ok i') :
    (∀ a, i'.addAtom a = .error .invariantViolation) ∧
    (∀ x, i'.addHKL x = .error .invariantViolation) ∧
    (∀ xs, i'.setHKLList xs = .error .invariantViolation) ∧
    (∀ si, i'.setStructInfo si = .error .invariantViolation) ∧
    (∀ x, i'.setXSectFree x = .error .invariantViolation) ∧
    (∀ x, i'.setXSectAbsorption x = .error .invariantViolation) ∧
    (∀ t, i'.setTemperature t = .error .invariantViolation) ∧
    (∀ d, i'.setDensity d = .error .invariantViolation) ∧
    (∀ d, i'.setNumberDensity d = .error .invariantViolation) ∧
    (∀ f, i'.setXSectProvider f = .error .invariantViolation) ∧
    (∀ d, i'.addDynInfo d = .error .invariantViolation) ∧
    (∀ c, i'.setComposition c = .error .invariantViolation) ∧
    (∀ cd, i'.setCustomData cd = .error .invariantViolation) := by
  have hlock : i'.lock = true := (objectDone_ok hdone).2.1
  refine ⟨fun a => ?_, fun x => ?_, fun xs => ?_, fun si => ?_, fun x => ?_,
    fun x => ?_, fun t => ?_, fun d => ?_, fun d => ?_, fun f => ?_,
    fun d => ?_, fun c => ?_, fun cd => ?_⟩ <;>
  simp [Info.addAtom, Info.addHKL, Info.setHKLList, Info.setStructInfo,
    Info.setXSectFree, Info.setXSectAbsorption, Info.setTemperature,
    Info.setDensity, Info.setNumberDensity, Info.setXSectProvider,
    Info.addDynInfo, Info.setComposition, Info.setCustomData,
    Info.ensureNoLock, hlock]

/-- The finalized empty Info object (used by the C1 witness). -/
def lockedEmptyInfo : Info := { lock := true }

/-- Witness for C1 at a concrete input: finalize succeeds on an empty Info
object and a subsequent `setTemperature` call fails with an
invariant-violation error. -/
theorem locked_info_rejects_all_mutators_witness :
    Info.objectDone {} = .ok lockedEmptyInfo ∧
    lockedEmptyInfo.setTemperature 293 = .error .invariantViolation :=
  ⟨rfl,
    (locked_info_rejects_all_mutators {} lockedEmptyInfo rfl).2.2.2.2.2.2.1 293⟩

/-- The reflection-list ordering stated by the spec, spelled out:
non-decreasing in d-spacing, with ties in d-spacing ordered lexicographically
by (h,k,l). -/
def hklOrdered (x y : HKLInfo) : Prop :=
  x.dspacing < y.dspacing ∨ (x.dspacing = y.dspacing ∧
    (x.h < y.h ∨ (x.h = y.h ∧ (x.k < y.k ∨ (x.k = y.k ∧ x.l ≤ y.l)))))

/-- The sort order used by `objectDone` coincides with the spelled-out
ordering of the spec. -/
theorem hklLE_iff (x y : HKLInfo) : hklLE x y ↔ hklOrdered x y := by
  simp [hklLE, hklKey, hklOrdered, Prod.Lex.le_iff]

/-- Claim C3: after finalize (`objectDone`) succeeds, the reflection list is
sorted non-decreasing in d-spacing with ties ordered lexicographically by
(h,k,l), and the atom list is sorted by atomic number. -/
theorem objectDone_sorts_lists (i i' : Info) (hdone : i.objectDone = .ok i') :
    i'.hkllist.Sorted hklOrdered ∧
    i'.atomlist.Sorted (fun a b => a.Zval ≤ b.Zval) := by
  obtain ⟨-, -, hh, ha⟩ := objectDone_ok hdone
  constructor
  · rw [hh]
    exact (List.sorted_insertionSort hklLE i.hkllist).imp
      (fun h => (hklLE_iff _ _).mp h)
  · rw [ha]
    refine List.Pairwise.map _ (fun a b hab => ?_)
      (List.sorted_insertionSort atomZLE i.atomlist)
    simpa [AtomInfo.Zval, atomZLE] using hab

/-- A small Building-state Info object with an unsorted reflection list and an
unsorted atom list (used by the C3 witness). -/
def sortDemoInfo : Info :=
  { hkllist := [ { dspacing := 2, h := 1, k := 0, l := 0, multiplicity := 2 },
                 { dspacing := 1, h := 1, k := 1, l := 1, multiplicity := 8 },
                 { dspacing := 2, h := 0, k := 1, l := 1, multiplicity := 4 } ],
    atomlist := [ { iad := ⟨⟨26⟩, 0⟩ }, { iad := ⟨⟨8⟩, 1⟩ } ] }

/-- The result of finalizing `sortDemoInfo`. -/
def sortDemoDone : Info :=
  { hkllist := [ { dspacing := 1, h := 1, k := 1, l := 1, multiplicity := 8 },
                 { dspacing := 2, h := 0, k := 1, l := 1, multiplicity := 4 },
                 { dspacing := 2, h := 1, k := 0, l := 0, multiplicity := 2 } ],
    atomlist := [ { iad := ⟨⟨8⟩, 1⟩ }, { iad := ⟨⟨26⟩, 0⟩ } ],
    atomDataSPs := [⟨26⟩, ⟨8⟩],
    displayLabels := ["atom-0", "atom-1"],
    lock := true }

/-- Witness for C3 at a concrete input: finalizing `sortDemoInfo` succeeds and
both resulting lists are sorted as claimed. -/
theorem objectDone_sorts_lists_witness :
    sortDemoInfo.objectDone = .ok sortDemoDone ∧
    sortDemoDone.hkllist.Sorted hklOrdered ∧
    sortDemoDone.atomlist.Sorted (fun a b => a.Zval ≤ b.Zval) :=
  ⟨rfl, (objectDone_sorts_lists sortDemoInfo sortDemoDone rfl).1,
    (objectDone_sorts_lists sortDemoInfo sortDemoDone rfl).2⟩

/-- Claim C6: the documented reflection invariant — `multiplicity ==
2 * demi_normals.size()` whenever demi-normals are present — holds for every
reflection of a finalized Info object, provided the producer populated the
Building-state list respecting the documented contract: finalize only
permutes the reflection list and so preserves the invariant entry-wise. -/
theorem objectDone_preserves_demiNormal_consistency (i i' : Info)
    (hdone : i.objectDone = .ok i')
    (hpre : ∀ x ∈ i.hkllist, x.demi_normals ≠ [] →
      x.multiplicity = 2 * x.demi_normals.length) :
    ∀ x ∈ i'.hkllist, x.demi_normals ≠ [] →
      x.multiplicity = 2 * x.demi_normals.length := by
  obtain ⟨-, -, hh, -⟩ := objectDone_ok hdone
  rw [hh]
  intro x hx
  exact hpre x (by simpa using hx)

/-- A Building-state Info object whose single reflection carries two
demi-normals and multiplicity 4 (used by the C6 witness). -/
def demiDemoInfo : Info :=
  { hkllist := [ { dspacing := 1, h := 1, k := 1, l := 0, multiplicity := 4,
                   demi_normals := [(1, 0, 0), (0, 1, 0)] } ] }

/-- The result of finalizing `demiDemoInfo`. -/
def demiDemoDone : Info :=
  { hkllist := demiDemoInfo.hkllist, lock := true }

/-- Witness for C6 at a concrete input: the demi-normal consistency invariant
holds before finalize and, by the theorem, after it. -/
theorem objectDone_preserves_demiNormal_consistency_witness :
    demiDemoInfo.objectDone = .ok demiDemoDone ∧
    (∀ x ∈ demiDemoDone.hkllist, x.demi_normals ≠ [] →
      x.multiplicity = 2 * x.demi_normals.length) :=
  ⟨rfl, objectDone_preserves_demiNormal_consistency demiDemoInfo demiDemoDone
    rfl (by decide)⟩

/-- Helper: running serialized calls against an already-built cache returns
the cached kernel to every caller and never executes the build routine. -/
theorem runEnsureBuildCalls_built {α : Type} (b : α) (n : ℕ) :
    runEnsureBuildCalls b n (some b) = (List.replicate n b, some b, 0) := by
  induction n with
  | zero => rfl
  | succ n ih =>
    simp [runEnsureBuildCalls, ensureBuildCriticalSection, ih,
      List.replicate_succ]

/-- Claim C2: issuing N ≥ 1 concurrent first-time calls to
`ensureBuildThenReturnSAB` on one `DI_ScatKnlDirect` instance (serialized by
the per-object mutex) executes the underlying `buildSAB` routine exactly
once, and all N calls return the same single cached result. -/
theorem ensureBuild_once_only {α : Type} (buildSAB : α) (n : ℕ) (h : 1 ≤ n) :
    runEnsureBuildCalls buildSAB n none =
      (List.replicate n buildSAB, some buildSAB, 1) := by
  obtain ⟨m, rfl⟩ : ∃ m, n = m + 1 := ⟨n - 1, by omega⟩
  simp [runEnsureBuildCalls, ensureBuildCriticalSection,
    runEnsureBuildCalls_built, List.replicate_succ]

/-- Witness for C2 at a concrete input: three serialized first-time calls on
an unbuilt cache yield one build execution and three identical returned
kernels. -/
theorem ensureBuild_once_only_witness :
    1 ≤ 3 ∧ runEnsureBuildCalls (7 : ℕ) 3 none =
      (List.replicate 3 7, some 7, 1) :=
  ⟨by norm_num, ensureBuild_once_only 7 3 (by norm_num)⟩

/-- An AtomInfo entry that has an MSD value (used by the C7 theorem). -/
def atomWithMSD : AtomInfo := { iad := ⟨⟨8⟩, 0⟩, msd := some (1/100) }

/-- An AtomInfo entry that has no MSD value (used by the C7 theorem). -/
def atomNoMSD : AtomInfo := { iad := ⟨⟨26⟩, 1⟩ }

/-- Claim C7: `hasAtomMSD` (and analogously `hasAtomDebyeTemp`) reports
presence based only on the first entry of the atom list: it returns true iff
the list is non-empty and its first entry has the value — including on
deliberately inconsistent (mixed) lists, as the two concrete mixed-list
evaluations show. -/
theorem hasAtomMSD_first_entry_policy :
    (∀ i : Info, i.hasAtomMSD = true ↔
      ∃ a as, i.atomlist = a :: as ∧ a.msd.isSome = true) ∧
    (∀ i : Info, i.hasAtomDebyeTemp = true ↔
      ∃ a as, i.atomlist = a :: as ∧ a.dt.isSome = true) ∧
    Info.hasAtomMSD { atomlist := [atomWithMSD, atomNoMSD] } = true ∧
    Info.hasAtomMSD { atomlist := [atomNoMSD, atomWithMSD] } = false := by
  refine ⟨fun i => ?_, fun i => ?_, by decide, by decide⟩
  · cases hl : i.atomlist with
    | nil => simp [Info.hasAtomMSD, Info.hasAtomInfo, hl]
    | cons a as => simp [Info.hasAtomMSD, Info.hasAtomInfo, hl]
  · cases hl : i.atomlist with
    | nil => simp [Info.hasAtomDebyeTemp, Info.hasAtomInfo, hl]
    | cons a as => simp [Info.hasAtomDebyeTemp, Info.hasAtomInfo, hl]

/-- Claim C8: on an Info object with an empty reflection list, the iteration
handles are valid and denote emptiness (`nHKL() == 0`, `hklBegin() ==
hklEnd()`, `hklLast() == hklEnd()`), the min/max d-spacing accessors return
infinity, and `hasHKLInfo()` distinguishes "no HKL info configured" from
"HKL info configured but list empty" via the separate presence flag carrying
the `[dlower,dupper]` window. -/
theorem empty_hkl_list_accessors (i : Info) (h : i.hkllist = []) :
    i.nHKL = 0 ∧ i.hklBegin = i.hklEnd ∧ i.hklLast = i.hklEnd ∧
    i.hklDMinVal = .inf ∧ i.hklDMaxVal = .inf ∧
    i.hasHKLInfo = i.hkl_dlower_and_dupper.isSome ∧
    (∀ w, i.hkl_dlower_and_dupper = some w →
      i.hasHKLInfo = true ∧ i.hklDLower = some w.1 ∧ i.hklDUpper = some w.2) ∧
    (i.hkl_dlower_and_dupper = none → i.hasHKLInfo = false) := by
  refine ⟨by simp [Info.nHKL, h], by simp [Info.hklBegin, Info.hklEnd, h],
    by simp [Info.hklLast, Info.hklEnd, h], by simp [Info.hklDMinVal, h],
    by simp [Info.hklDMaxVal, h], rfl, ?_, ?_⟩
  · intro w hw
    simp [Info.hasHKLInfo, Info.hklDLower, Info.hklDUpper, hw]
  · intro hw
    simp [Info.hasHKLInfo, hw]

/-- An Info object with HKL info configured (a `[dlower,dupper]` window) but
an empty reflection list (used by the C8 witness). -/
def emptyHKLDemo : Info := { hkl_dlower_and_dupper := some (1/2, 30) }

/-- Witness for C8 at a concrete input: HKL info is configured, the list is
empty, and all the claimed accessor values hold. -/
theorem empty_hkl_list_accessors_witness :
    emptyHKLDemo.hkllist = [] ∧
    (emptyHKLDemo.nHKL = 0 ∧ emptyHKLDemo.hklBegin = emptyHKLDemo.hklEnd ∧
    emptyHKLDemo.hklLast = emptyHKLDemo.hklEnd ∧
    emptyHKLDemo.hklDMinVal = .inf ∧ emptyHKLDemo.hklDMaxVal = .inf ∧
    emptyHKLDemo.hasHKLInfo = emptyHKLDemo.hkl_dlower_and_dupper.isSome ∧
    (∀ w, emptyHKLDemo.hkl_dlower_and_dupper = some w →
      emptyHKLDemo.hasHKLInfo = true ∧ emptyHKLDemo.hklDLower = some w.1 ∧
      emptyHKLDemo.hklDUpper = some w.2) ∧
    (emptyHKLDemo.hkl_dlower_and_dupper = none →
      emptyHKLDemo.hasHKLInfo = false)) :=
  ⟨rfl, empty_hkl_list_accessors emptyHKLDemo rfl⟩

/-- Claim C9: in every state of an Info object, each legacy
global-Debye-temperature accessor (`getGlobalDebyeTemperature`,
`hasPerElementDebyeTemperature`, `getDebyeTemperatureByElement`) fails with
the migration-guidance LogicError and never returns a usable value. -/
theorem obsolete_debye_accessors_always_fail :
    ∀ i : Info,
      i.getGlobalDebyeTemperature = .error (.logicError obsoleteDebyeTempMsg) ∧
      i.hasPerElementDebyeTemperature =
        .error (.logicError obsoleteDebyeTempMsg) ∧
      ∀ ai, i.getDebyeTemperatureByElement ai =
        .error (.logicError obsoleteDebyeTempMsg) :=
  fun _ => ⟨rfl, rfl, fun _ => rfl⟩

/-- Claim C10: `isCrystalline()` returns true iff at least one of structure
info present, atom list non-empty (`hasAtomInfo`, aliased by
`hasAtomPositions`), or HKL info configured holds. -/
theorem isCrystalline_iff :
    ∀ i : Info,
      (i.isCrystalline = true ↔
        i.hasStructureInfo = true ∨ i.atomlist ≠ [] ∨ i.hasHKLInfo = true) ∧
      i.hasAtomPositions = i.hasAtomInfo := by
  intro i
  refine ⟨?_, rfl⟩
  simp only [Info.isCrystalline, Info.hasAtomPositions, Info.hasAtomInfo,
    Bool.or_eq_true, Bool.not_eq_true', List.isEmpty_iff, List.isEmpty_eq_false,
    Bool.not_eq_true]
  tauto

/-- Claim C4 counterexample: for the reciprocal matrix with row norms
(1, 1, 10) — an orthorhombic lattice with a = b = 2π, c = 2π/10 — and
d-cutoff 1, applying `estimateDCutoff` to the maximal per-axis bound returned
by `estimateHKLRange` yields ≈ 0.105 < 1, so the composition does loosen the
cutoff. -/
theorem estimate_roundTrip_maxBound_fails :
    estimateDCutoff (maxTriple (estimateHKLRange 1 1 1 10)) 1 1 10 < 1 := by
  norm_num [estimateDCutoff, maxTriple, estimateHKLRange, estimateHKLRangeAxis,
    twoPi]

/-- Helper for the amended C4: if the serialized per-axis bound dominates m ≥ 1,
the cutoff recovered from m along that axis is at least the requested one. -/
theorem dcutoff_axis_ge {d r : ℚ} {m : ℤ} (hd : 0 < d) (hr : 0 < r)
    (hm1 : 1 ≤ m) (hle : m ≤ estimateHKLRangeAxis d r) :
    d ≤ twoPi / ((m : ℚ) * r) := by
  rw [estimateHKLRangeAxis, if_neg (not_le.mpr hd)] at hle
  have hfl : m ≤ ⌊twoPi / (d * r)⌋ := by
    rcases le_total ⌊twoPi / (d * r)⌋ 0 with h | h
    · have := max_eq_left h
      omega
    · rwa [max_eq_right h] at hle
  have hmr : (m : ℚ) ≤ twoPi / (d * r) :=
    le_trans (by exact_mod_cast hfl) (Int.floor_le _)
  have hmq : (0 : ℚ) < (m : ℚ) := by exact_mod_cast lt_of_lt_of_le one_pos hm1
  rw [le_div_iff₀ (mul_pos hd hr)] at hmr
  rw [le_div_iff₀ (mul_pos hmq hr)]
  calc d * ((m : ℚ) * r) = (m : ℚ) * (d * r) := by ring
    _ ≤ twoPi := hmr

/-- Claim C4 amended: for every reciprocal matrix (row norms r0, r1, r2 > 0)
and every d-cutoff d > 0, applying `estimateDCutoff` to the **minimal**
per-axis HKL bound computed by `estimateHKLRange` — provided the cutoff is
reachable on every axis, i.e. that minimal bound is at least 1 — yields a
value ≥ d: the recovered cutoff is never looser than requested. -/
theorem estimate_roundTrip_minBound (d r0 r1 r2 : ℚ)
    (hd : 0 < d) (h0 : 0 < r0) (h1 : 0 < r1) (h2 : 0 < r2)
    (hreach : 1 ≤ minTriple (estimateHKLRange d r0 r1 r2)) :
    d ≤ estimateDCutoff (minTriple (estimateHKLRange d r0 r1 r2)) r0 r1 r2 := by
  set m := minTriple (estimateHKLRange d r0 r1 r2) with hmdef
  have hexp : m = min (estimateHKLRangeAxis d r0)
      (min (estimateHKLRangeAxis d r1) (estimateHKLRangeAxis d r2)) := rfl
  have hm0 : m ≤ estimateHKLRangeAxis d r0 := hexp ▸ min_le_left _ _
  have hm1 : m ≤ estimateHKLRangeAxis d r1 :=
    le_trans (hexp ▸ min_le_right _ _) (min_le_left _ _)
  have hm2 : m ≤ estimateHKLRangeAxis d r2 :=
    le_trans (hexp ▸ min_le_right _ _) (min_le_right _ _)
  exact le_min (dcutoff_axis_ge hd h0 hreach hm0)
    (le_min (dcutoff_axis_ge hd h1 hreach hm1)
      (dcutoff_axis_ge hd h2 hreach hm2))

/-- Witness for the amended C4 at a concrete input: for a cubic reciprocal
matrix with unit row norms and d-cutoff 1, all hypotheses hold and the
recovered cutoff (2π/6 ≈ 1.047) is at least the requested one. -/
theorem estimate_roundTrip_minBound_witness :
    ((0 : ℚ) < 1 ∧ 1 ≤ minTriple (estimateHKLRange 1 1 1 1)) ∧
    (1 : ℚ) ≤ estimateDCutoff (minTriple (estimateHKLRange 1 1 1 1)) 1 1 1 :=
  ⟨⟨by norm_num,
    by norm_num [minTriple, estimateHKLRange, estimateHKLRangeAxis, twoPi]⟩,
    estimate_roundTrip_minBound 1 1 1 1 (by norm_num) (by norm_num)
      (by norm_num) (by norm_num)
      (by norm_num [minTriple, estimateHKLRange, estimateHKLRangeAxis, twoPi])⟩

/-- Claim C5: `checkAndCompleteLattice(spacegroup=225, a=4, b=0, c=0)`
completes the zero-valued lengths to b = c = 4; the same call with b = 3.9
fails with an input-validation error; and in general the call fails with an
input-validation error exactly when the spacegroup number is outside [1,230],
a provided non-zero b or c contradicts the symmetry-mandated equality, or a
length required to be positive (after symmetry completion) is zero or
negative. -/
theorem checkAndCompleteLattice_spec :
    checkAndCompleteLattice 225 4 0 0 = .ok (4, 4) ∧
    checkAndCompleteLattice 225 4 (39/10) 0 = .error .badInput ∧
    ∀ (sg : ℕ) (a b c : ℚ),
      checkAndCompleteLattice sg a b c = .error .badInput ↔
        (sg < 1 ∨ 230 < sg) ∨
        (75 ≤ sg ∧ sg ≤ 230 ∧ b ≠ 0 ∧ b ≠ a) ∨
        (195 ≤ sg ∧ sg ≤ 230 ∧ c ≠ 0 ∧ c ≠ a) ∨
        (1 ≤ sg ∧ sg ≤ 230 ∧
          (a ≤ 0 ∨ completeB sg a b ≤ 0 ∨ completeC sg a c ≤ 0)) := by
  refine ⟨by norm_num [checkAndCompleteLattice, completeB, completeC],
    by norm_num [checkAndCompleteLattice, completeB, completeC],
    fun sg a b c => ?_⟩
  simp only [checkAndCompleteLattice]
  split_ifs with hsg hb hc hpos
  · simp only [true_iff]
    exact Or.inl hsg
  · push_neg at hsg
    simp only [true_iff]
    have hbne0 : b ≠ 0 := fun hb0 => hb.2 (by simp [completeB, hb.1, hb0])
    have hbnea : b ≠ a := by
      intro hba
      have hbB : completeB sg a b = b ∨ completeB sg a b = a := by
        unfold completeB; split <;> simp
      rcases hbB with h | h
      · exact hb.2 (h.trans hba)
      · exact hb.2 h
    exact Or.inr (Or.inl ⟨hb.1, hsg.2, hbne0, hbnea⟩)
  · push_neg at hsg
    simp only [true_iff]
    have hcne0 : c ≠ 0 := fun hc0 => hc.2 (by simp [completeC, hc.1, hc0])
    have hcnea : c ≠ a := by
      intro hca
      have hcC : completeC sg a c = c ∨ completeC sg a c = a := by
        unfold completeC; split <;> simp
      rcases hcC with h | h
      · exact hc.2 (h.trans hca)
      · exact hc.2 h
    exact Or.inr (Or.inr (Or.inl ⟨hc.1, hsg.2, hcne0, hcnea⟩))
  · push_neg at hsg
    simp only [true_iff]
    exact Or.inr (Or.inr (Or.inr ⟨hsg.1, hsg.2, hpos⟩))
  · push_neg at hsg
    constructor
    · intro h
      exact absurd h (by simp)
    · rintro ((h | h) | ⟨h75, -, hb0, hba⟩ | ⟨h195, -, hc0, hca⟩ | ⟨-, -, hpos'⟩)
      · exact absurd h (by omega)
      · exact absurd h (by omega)
      · exact absurd ⟨h75, by simpa [completeB, hb0] using hba⟩ hb
      · exact absurd ⟨h195, by simpa [completeC, hc0] using hca⟩ hc
      · exact absurd hpos' hpos

end NCrystal
